import Mathlib

/-!
Shallow embedding of the Overwatch frame-processing core
(`src/backend/cpp_preproc/frame_processor.hpp` / `frame_processor.cpp`).

Pixel buffers (`cv::Mat`) are modelled at sample granularity: `data` holds one
rational value per sample, row-major and channel-interleaved.  The geometric
resampling primitive (`cv::resize`) and the codec primitive (`tjCompress2`)
are external-library calls whose internals the code treats as black boxes;
they are modelled by concrete executable stand-ins that honour their
documented contracts (resize honours the requested destination size and
throws on empty source or destination geometry; the codec fails on empty
geometry and reports the codestream size it produced).
-/

namespace Overwatch

/-- Element depth of a `cv::Mat` sample (`CV_8U` before normalization,
`CV_32F` after `convertTo(..., CV_32FC3, 1.0/255.0)`). -/
inductive Depth where
  | u8 : Depth
  | f32 : Depth
deriving DecidableEq, Repr

/-- Model of `cv::Mat`: geometry plus one rational per sample, row-major and
channel-interleaved. -/
structure Mat where
  rows : Nat
  cols : Nat
  channels : Nat
  depth : Depth
  data : List ℚ
deriving DecidableEq, Repr

instance : Inhabited Mat := ⟨⟨0, 0, 0, Depth.u8, []⟩⟩

/-- Model of `PreprocessConfig` (frame_processor.hpp lines 26-34).  The C++
ints are modelled as `Int` so that zero and negative target dimensions are
representable. -/
structure PreprocessConfig where
  target_width : Int := 640
  target_height : Int := 640
  normalize : Bool := true
  rgb_conversion : Bool := true
  mean : Fin 3 → ℚ := fun _ => 0
  std : Fin 3 → ℚ := fun _ => 1
  interpolation : Nat := 1

/-- Model of `JPEGConfig` (frame_processor.hpp lines 39-44). -/
structure JPEGConfig where
  quality : Int := 85
  subsample : Nat := 2
  optimize : Bool := true
  progressive : Bool := false

/-- Model of `ProcessedFrame` (frame_processor.hpp lines 49-56).  `data` is at
sample granularity for raw outputs and codestream-unit granularity for encoded
outputs.  The C++ struct leaves the int fields uninitialized; paths that never
write them are modelled as leaving the default 0. -/
structure ProcessedFrame where
  data : List ℚ := []
  width : Int := 0
  height : Int := 0
  channels : Int := 0
  success : Bool := true
  error_msg : String := ""
deriving DecidableEq, Repr

instance : Inhabited ProcessedFrame := ⟨{}⟩

/-- The statistics counters `frames_processed_` and `bytes_encoded_`
(frame_processor.hpp lines 106-107), mutated under `stats_mutex_`. -/
structure Stats where
  frames_processed : Nat
  bytes_encoded : Nat
deriving DecidableEq, Repr

/-- Nearest-neighbour stand-in for the resampling algorithm inside
`cv::resize`; the pipeline treats the algorithm itself as a black box, and
only the output geometry (exactly `H` rows by `W` cols, channel count
preserved) is relied on. -/
def resampleData (m : Mat) (W H : Nat) : List ℚ :=
  (List.range (H * W * m.channels)).map (fun j =>
    let ch := j % m.channels
    let pix := j / m.channels
    let x := pix % W
    let y := pix / W
    let sx := x * m.cols / W
    let sy := y * m.rows / H
    m.data.getD ((sy * m.cols + sx) * m.channels + ch) 0)

/-- Model of `cv::resize(src, dst, cv::Size(width, height), 0, 0, interp)`:
it asserts (throws) on an empty source or an empty/negative destination size,
and otherwise produces a buffer of exactly the requested geometry. -/
def cvResize (m : Mat) (width height : Int) (interp : Nat) : Option Mat :=
  if 0 < width ∧ 0 < height ∧ 0 < m.cols ∧ 0 < m.rows then
    some { rows := height.toNat, cols := width.toNat, channels := m.channels,
           depth := m.depth,
           data := resampleData m width.toNat height.toNat }
  else none

/-- Sample permutation performed by `cv::cvtColor(..., COLOR_BGR2RGB)` on a
3-channel interleaved buffer: the first and third sample of every pixel are
swapped. -/
def bgr2rgbData : List ℚ → List ℚ
  | b :: g :: r :: rest => r :: g :: b :: bgr2rgbData rest
  | l => l

/-- Model of `cv::cvtColor(frame, out, cv::COLOR_BGR2RGB)`: `cvtColor`
asserts (throws) on an empty source buffer, modelled as `none`; on a nonempty
buffer it swaps the first and third sample of every pixel. -/
def cvtColorBGR2RGB (m : Mat) : Option Mat :=
  if 0 < m.cols ∧ 0 < m.rows then
    some { m with data := bgr2rgbData m.data }
  else none

/-- Sample selection performed by `cv::cvtColor(..., COLOR_BGRA2BGR)`: the
fourth (alpha) sample of every pixel is dropped. -/
def bgra2bgrData : List ℚ → List ℚ
  | b :: g :: r :: _ :: rest => b :: g :: r :: bgra2bgrData rest
  | l => l

/-- Model of `cv::cvtColor(frame, out, cv::COLOR_BGRA2BGR)`: `cvtColor`
asserts (throws) on an empty source buffer, modelled as `none`; on a nonempty
buffer the alpha sample is dropped and the channel count becomes 3. -/
def cvtColorBGRA2BGR (m : Mat) : Option Mat :=
  if 0 < m.cols ∧ 0 < m.rows then
    some { m with channels := 3, data := bgra2bgrData m.data }
  else none

/-- Model of `Mat::convertTo(out, CV_32FC3, 1.0/255.0)`: every sample is
multiplied by 1/255 and the depth becomes 32-bit float (channel count is
preserved; `convertTo` only takes the depth from its rtype argument). -/
def convertTo255 (m : Mat) : Mat :=
  { m with depth := Depth.f32, data := m.data.map (fun x => x * (1 / 255)) }

/-- The per-channel `(x - mean[i]) / std[i]` arithmetic of the
`cv::split` / per-channel loop / `cv::merge` sequence, expressed sample by
sample: the sample at flat index `j` of an interleaved buffer belongs to
channel `j % channels`, and the loop touches exactly the channels below 3. -/
def applyMSAux (mean stdv : Fin 3 → ℚ) (channels : Nat) : Nat → List ℚ → List ℚ
  | _, [] => []
  | j, x :: xs =>
    (if h : j % channels < 3 then
        (x - mean ⟨j % channels, h⟩) / stdv ⟨j % channels, h⟩
      else x)
      :: applyMSAux mean stdv channels (j + 1) xs

/-- Per-channel mean/std normalization applied to a whole buffer. -/
def applyMS (mean stdv : Fin 3 → ℚ) (m : Mat) : Mat :=
  { m with data := applyMSAux mean stdv m.channels 0 m.data }

/-- The normalize step of `FrameProcessor::preprocess_internal`
(frame_processor.cpp lines 77-95): scale to [0,1] as float, then apply the
mean/std arithmetic only when the parameters differ from the identity
(mean = 0, std = 1); at the identity the subtract/divide step is skipped. -/
def preprocNormalize (m : Mat) (mean stdv : Fin 3 → ℚ) : Mat :=
  let scaled := convertTo255 m
  if mean 0 ≠ 0 ∨ mean 1 ≠ 0 ∨ mean 2 ≠ 0 ∨
      stdv 0 ≠ 1 ∨ stdv 1 ≠ 1 ∨ stdv 2 ≠ 1 then
    applyMS mean stdv scaled
  else scaled

/-- Model of `FrameProcessor::normalize_frame` (frame_processor.cpp lines
281-298): the unoptimized path that always performs the per-channel
`(x - mean) / std` arithmetic after scaling (the source guards the loop with
`min(3, channels)`, i.e. exactly the channels below 3 are touched). -/
def normalize_frame (m : Mat) (mean stdv : Fin 3 → ℚ) : Mat :=
  applyMS mean stdv (convertTo255 m)

/-- The guard of the mean/std branch of `preprocess_internal`
(frame_processor.cpp lines 83-84): at least one mean component differs from 0
or one std component differs from 1. -/
def meanStdNonIdentity (mean stdv : Fin 3 → ℚ) : Prop :=
  mean 0 ≠ 0 ∨ mean 1 ≠ 0 ∨ mean 2 ≠ 0 ∨
    stdv 0 ≠ 1 ∨ stdv 1 ≠ 1 ∨ stdv 2 ≠ 1

instance (mean stdv : Fin 3 → ℚ) : Decidable (meanStdNonIdentity mean stdv) := by
  unfold meanStdNonIdentity
  infer_instance

/-- Model of `FrameProcessor::preprocess_internal` (frame_processor.cpp lines
62-98).  A thrown exception is modelled as `none`; the throwing steps are the
resize (attempted only when both target dimensions are positive, silently
skipped otherwise, failing on an empty source) and the BGR→RGB `cvtColor`
(guarded on the *input* frame having exactly 3 channels — line 73 reads
`frame.channels()` — and failing on an empty source).  Caveat: when the
mean/std branch of the normalize step runs on a frame with fewer than 3
channels, the source indexes `channels[i]` out of bounds (undefined
behaviour, not an exception); the model is total there, so theorems about
this function carry a hypothesis excluding that region. -/
def preprocess_internal (m : Mat) (c : PreprocessConfig) : Option Mat :=
  match (if 0 < c.target_width ∧ 0 < c.target_height then
          cvResize m c.target_width c.target_height c.interpolation
        else some m) with
  | none => none
  | some p1 =>
    match (if c.rgb_conversion ∧ m.channels = 3 then cvtColorBGR2RGB p1
          else some p1) with
    | none => none
    | some p2 => some (if c.normalize then preprocNormalize p2 c.mean c.std else p2)

/-- Model of `FrameProcessor::preprocess_for_inference` (frame_processor.cpp
lines 100-128): on success the result carries the processed geometry and data
and `frames_processed_` is incremented under the stats lock; a caught
exception yields success = false with the exception message and untouched
statistics (the geometry fields are never written on that path). -/
def preprocess_for_inference (s : Stats) (m : Mat) (c : PreprocessConfig) :
    ProcessedFrame × Stats :=
  match preprocess_internal m c with
  | some p =>
    ({ data := p.data, width := (p.cols : Int), height := (p.rows : Int),
       channels := (p.channels : Int), success := true, error_msg := "" },
     { s with frames_processed := s.frames_processed + 1 })
  | none =>
    ({ data := [], width := 0, height := 0, channels := 0, success := false,
       error_msg := "cv exception" }, s)

/-- The result of `preprocess_for_inference` does not depend on the statistics
state; this projection is the per-frame result used by the batch model. -/
def preprocess_result (m : Mat) (c : PreprocessConfig) : ProcessedFrame :=
  (preprocess_for_inference { frames_processed := 0, bytes_encoded := 0 } m c).1

/-- Model of `FrameProcessor::resize_frame` (frame_processor.cpp lines 30-60):
the result metadata (requested width/height, input channel count) is written
before the resize is attempted; on success the data is the buffer the resize
primitive actually produced and `frames_processed_` is incremented; a caught
exception yields success = false with untouched statistics and empty data. -/
def resize_frame (s : Stats) (m : Mat) (width height : Int) (interp : Nat) :
    ProcessedFrame × Stats :=
  match cvResize m width height interp with
  | some p =>
    ({ data := p.data, width := width, height := height,
       channels := (m.channels : Int), success := true, error_msg := "" },
     { s with frames_processed := s.frames_processed + 1 })
  | none =>
    ({ data := [], width := width, height := height,
       channels := (m.channels : Int), success := false,
       error_msg := "resize failed" }, s)

/-- Identity of a turbojpeg handle: the `FrameProcessor` member
`jpeg_compressor_` created in the constructor, or a handle allocated locally
by worker `w` inside the parallel region of `batch_encode_jpeg`. -/
inductive TJHandle where
  | member : TJHandle
  | workerLocal : Nat → TJHandle
deriving DecidableEq, Repr

/-- Model of the codec primitive `tjCompress2`: it rejects an empty buffer
(width or height below 1) and otherwise produces a codestream whose size it
reports authoritatively.  The codestream content is a concrete stand-in for
the black-box bitstream. -/
def tjCompress2 (m : Mat) (c : JPEGConfig) : Option (List ℚ) :=
  if 0 < m.cols ∧ 0 < m.rows then
    some ((m.cols : ℚ) :: (m.rows : ℚ) :: (c.quality : ℚ) :: m.data)
  else none

/-- The local `bgr_frame` of `encode_jpeg_internal` (frame_processor.cpp lines
160-164): a 4-channel frame is reduced to 3 channels (alpha dropped) by
`cvtColor`, which throws on an empty source (`none`); every other frame is
passed through unchanged. -/
def bgrConvert (m : Mat) : Option Mat :=
  if m.channels = 4 then cvtColorBGRA2BGR m else some m

/-- Model of `FrameProcessor::encode_jpeg_internal` (frame_processor.cpp lines
149-218), instrumented: the third component records whether the codec
primitive was invoked.  The result metadata (input geometry and *input*
channel count) is written before the try block; a 4-channel frame is reduced
to 3 channels by `cvtColor`, which throws before the channel check if the
source is empty (codec not invoked); a channel count outside 1 and 3 after
the reduction throws "Unsupported channel count" before the codec is reached;
a codec failure throws after the codec was invoked.  On success the
statistics are bumped under the stats lock; on any caught exception they are
left untouched. -/
def encode_jpeg_run (s : Stats) (m : Mat) (c : JPEGConfig) :
    ProcessedFrame × Stats × Bool :=
  match bgrConvert m with
  | none =>
    ({ data := [], width := (m.cols : Int), height := (m.rows : Int),
       channels := (m.channels : Int), success := false,
       error_msg := "cv exception" }, s, false)
  | some bgr =>
    if bgr.channels = 1 ∨ bgr.channels = 3 then
      match tjCompress2 bgr c with
      | some code =>
        ({ data := code, width := (m.cols : Int), height := (m.rows : Int),
           channels := (m.channels : Int), success := true, error_msg := "" },
         { frames_processed := s.frames_processed + 1,
           bytes_encoded := s.bytes_encoded + code.length }, true)
      | none =>
        ({ data := [], width := (m.cols : Int), height := (m.rows : Int),
           channels := (m.channels : Int), success := false,
           error_msg := "turbojpeg compression failed" }, s, true)
    else
      ({ data := [], width := (m.cols : Int), height := (m.rows : Int),
         channels := (m.channels : Int), success := false,
         error_msg := "Unsupported channel count" }, s, false)

/-- `encode_jpeg_internal` as result and statistics. -/
def encode_jpeg_internal (s : Stats) (m : Mat) (c : JPEGConfig) :
    ProcessedFrame × Stats :=
  ((encode_jpeg_run s m c).1, (encode_jpeg_run s m c).2.1)

/-- Model of `FrameProcessor::encode_jpeg` (frame_processor.cpp lines
220-225): a direct delegation to `encode_jpeg_internal`. -/
def encode_jpeg (s : Stats) (m : Mat) (c : JPEGConfig) :
    ProcessedFrame × Stats :=
  encode_jpeg_internal s m c

/-- The result of `encode_jpeg_internal` does not depend on the statistics
state; this projection is the per-frame result used by the batch model. -/
def encode_result (m : Mat) (c : JPEGConfig) : ProcessedFrame :=
  (encode_jpeg_internal { frames_processed := 0, bytes_encoded := 0 } m c).1

/-- The handle each worker allocates at the top of the parallel region of
`batch_encode_jpeg` (frame_processor.cpp line 236) and destroys at its end
(line 243). -/
def batch_worker_alloc_handle (w : Nat) : TJHandle := TJHandle.workerLocal w

/-- The handle `encode_jpeg_internal` passes to `tjCompress2`
(frame_processor.cpp line 184): always the member `jpeg_compressor_`, no
matter which worker `w` executes which frame `i` of the batch — the
worker-local handle never reaches the codec call. -/
def batch_handle_used (w i : Nat) : TJHandle := TJHandle.member

/-- Model of `FrameProcessor::batch_preprocess` (frame_processor.cpp lines
130-147).  The OpenMP parallel-for computes each frame's result and appends
it to `results` inside an `omp critical` section; the aggregate is therefore
determined by `pushOrder`, the order in which the per-frame critical sections
are entered.  Any permutation of the frame indices is a possible `pushOrder`
under OpenMP scheduling (the sequential schedule is `List.range N`). -/
def batch_preprocess (frames : List Mat) (c : PreprocessConfig)
    (pushOrder : List Nat) : List ProcessedFrame :=
  pushOrder.map (fun i => preprocess_result (frames.getD i default) c)

/-- Model of `FrameProcessor::batch_encode_jpeg` (frame_processor.cpp lines
227-247): the result vector is pre-sized to `frames.size()` and slot `i` is
written with the encode of frame `i` by whichever worker executes iteration
`i`, so the aggregate is independent of scheduling. -/
def batch_encode_jpeg (frames : List Mat) (c : JPEGConfig) :
    List ProcessedFrame :=
  (List.range frames.length).map (fun i => encode_result (frames.getD i default) c)

/-- Model of `FrameProcessor::reset_stats` (frame_processor.cpp lines
300-304): both counters return to zero. -/
def reset_stats : Stats := { frames_processed := 0, bytes_encoded := 0 }

/-- Sequential execution of one `encode_jpeg` call per frame, threading the
statistics state through; the scenario of the statistics claim. -/
def run_encodes (s : Stats) (frames : List Mat) (c : JPEGConfig) :
    List ProcessedFrame × Stats :=
  match frames with
  | [] => ([], s)
  | m :: rest =>
    ((encode_jpeg_internal s m c).1 ::
        (run_encodes (encode_jpeg_internal s m c).2 rest c).1,
      (run_encodes (encode_jpeg_internal s m c).2 rest c).2)

/-- State of a `FrameProcessorPool` (frame_processor.hpp lines 118-145):
the `stop_` flag, the FIFO task queue (tasks named by ids), the tasks the
workers have run to completion in execution order, and whether all workers
have exited and been joined. -/
structure PoolState where
  stop : Bool
  tasks : List Nat
  executed : List Nat
  workersExited : Bool
deriving DecidableEq, Repr

/-- The pool right after construction (frame_processor.cpp lines 307-313):
stop flag clear, empty queue, workers running. -/
def initialPool : PoolState :=
  { stop := false, tasks := [], executed := [], workersExited := false }

/-- Model of `FrameProcessorPool::submit_batch` (frame_processor.cpp lines
339-358): under the queue mutex the task is appended to the FIFO queue
unconditionally — the code never consults `stop_`. -/
def submit_batch (s : PoolState) (t : Nat) : PoolState :=
  { s with tasks := s.tasks ++ [t] }

/-- Model of `FrameProcessorPool::submit_encode_batch` (frame_processor.cpp
lines 360-379): identical queueing behaviour to `submit_batch`. -/
def submit_encode_batch (s : PoolState) (t : Nat) : PoolState :=
  { s with tasks := s.tasks ++ [t] }

/-- First phase of `FrameProcessorPool::shutdown` (frame_processor.cpp lines
382-385): set the stop flag under the queue mutex.  The mutex is released
before the join phase, so submissions can interleave between the phases. -/
def set_stop (s : PoolState) : PoolState := { s with stop := true }

/-- Second phase of `shutdown` (frame_processor.cpp lines 387-393) combined
with the worker loop (lines 319-337): once the stop flag is set a worker
exits only when the queue is empty (`stop_ && tasks_.empty()`), so the
workers drain every queued task to completion before exiting and being
joined; joining already-exited workers is skipped (`joinable()` is false). -/
def join_workers (s : PoolState) : PoolState :=
  if s.workersExited then s
  else { s with tasks := [],
                executed := s.executed ++ s.tasks,
                workersExited := true }

/-- Model of `FrameProcessorPool::shutdown` (frame_processor.cpp lines
381-394): stop flag, notify, join. -/
def shutdown (s : PoolState) : PoolState := join_workers (set_stop s)

/-- A 1-by-1 3-channel test frame. -/
def matA : Mat :=
  { rows := 1, cols := 1, channels := 3, depth := Depth.u8, data := [1, 2, 3] }

/-- A 2-by-2 3-channel test frame. -/
def matB : Mat :=
  { rows := 2, cols := 2, channels := 3, depth := Depth.u8,
    data := [4, 5, 6, 7, 8, 9, 10, 11, 12, 13, 14, 15] }

/-- A malformed frame: zero width. -/
def badMat : Mat :=
  { rows := 1, cols := 0, channels := 3, depth := Depth.u8, data := [] }

/-- A 1-by-1 2-channel frame (unsupported by the encoder). -/
def mat2ch : Mat :=
  { rows := 1, cols := 1, channels := 2, depth := Depth.u8, data := [5, 6] }

/-- A 1-by-1 4-channel (BGRA) frame. -/
def mat4ch : Mat :=
  { rows := 1, cols := 1, channels := 4, depth := Depth.u8, data := [9, 8, 7, 6] }

/-- A 1-by-1 single-channel (grayscale) frame. -/
def grayMat : Mat :=
  { rows := 1, cols := 1, channels := 1, depth := Depth.u8, data := [4] }

/-- The default preprocessing configuration (hpp defaults). -/
def defaultPre : PreprocessConfig := {}

/-- The default JPEG configuration (hpp defaults). -/
def defaultJpeg : JPEGConfig := {}

/-- A configuration whose target width is zero: the resize guard at
frame_processor.cpp line 66 is false for it. -/
def zeroWidthPre : PreprocessConfig :=
  { target_width := 0, target_height := 640,
    normalize := false, rgb_conversion := false }

/-- A configuration with both target dimensions non-positive and all other
steps disabled, so a preprocessed frame keeps its input geometry and data. -/
def noResizePre : PreprocessConfig :=
  { target_width := 0, target_height := 0,
    normalize := false, rgb_conversion := false }

/-- A configuration with negative target dimensions. -/
def negDimsPre : PreprocessConfig :=
  { target_width := -5, target_height := -7,
    normalize := false, rgb_conversion := false }

/-! Helper lemmas. -/

theorem applyMSAux_id (channels j : Nat) (xs : List ℚ) :
    applyMSAux (fun _ => 0) (fun _ => 1) channels j xs = xs := by
  induction xs generalizing j with
  | nil => rfl
  | cons x xs ih =>
    unfold applyMSAux
    split <;> simp [ih]

theorem applyMS_id (m : Mat) :
    applyMS (fun _ => 0) (fun _ => 1) m = m := by
  unfold applyMS
  rw [applyMSAux_id]

/-- C5: normalizing with the identity parameters mean = 0 and std = 1, where
`preprocess_internal` skips the subtract/divide step, produces output
identical to `normalize_frame`, the unoptimized version that always performs
the per-channel (x - mean)/std arithmetic. -/
theorem C5_identity_normalize_bit_identical (m : Mat) :
    preprocNormalize m (fun _ => 0) (fun _ => 1) =
      normalize_frame m (fun _ => 0) (fun _ => 1) := by
  unfold preprocNormalize normalize_frame
  rw [applyMS_id]
  simp

theorem cvtColorBGR2RGB_pos (m : Mat) (hc : 0 < m.cols) (hr : 0 < m.rows) :
    cvtColorBGR2RGB m = some { m with data := bgr2rgbData m.data } := by
  unfold cvtColorBGR2RGB
  rw [if_pos ⟨hc, hr⟩]

theorem cvtColorBGRA2BGR_pos (m : Mat) (hc : 0 < m.cols) (hr : 0 < m.rows) :
    cvtColorBGRA2BGR m =
      some { m with channels := 3, data := bgra2bgrData m.data } := by
  unfold cvtColorBGRA2BGR
  rw [if_pos ⟨hc, hr⟩]

@[simp] theorem convertTo255_cols (m : Mat) : (convertTo255 m).cols = m.cols := rfl

@[simp] theorem convertTo255_rows (m : Mat) : (convertTo255 m).rows = m.rows := rfl

@[simp] theorem applyMS_cols (mean stdv : Fin 3 → ℚ) (m : Mat) :
    (applyMS mean stdv m).cols = m.cols := rfl

@[simp] theorem applyMS_rows (mean stdv : Fin 3 → ℚ) (m : Mat) :
    (applyMS mean stdv m).rows = m.rows := rfl

@[simp] theorem preprocNormalize_cols (m : Mat) (mean stdv : Fin 3 → ℚ) :
    (preprocNormalize m mean stdv).cols = m.cols := by
  unfold preprocNormalize
  split <;> rfl

@[simp] theorem preprocNormalize_rows (m : Mat) (mean stdv : Fin 3 → ℚ) :
    (preprocNormalize m mean stdv).rows = m.rows := by
  unfold preprocNormalize
  split <;> rfl

theorem preprocess_internal_skip (m : Mat) (c : PreprocessConfig)
    (hdims : ¬(0 < c.target_width ∧ 0 < c.target_height))
    (hcvt : c.rgb_conversion = true → m.channels = 3 → 0 < m.cols ∧ 0 < m.rows) :
    ∃ p, preprocess_internal m c = some p ∧ p.cols = m.cols ∧ p.rows = m.rows := by
  by_cases hc : c.rgb_conversion ∧ m.channels = 3
  · obtain ⟨hx, hy⟩ := hcvt hc.1 hc.2
    have hpi : preprocess_internal m c =
        some (if c.normalize then
                preprocNormalize { m with data := bgr2rgbData m.data } c.mean c.std
              else { m with data := bgr2rgbData m.data }) := by
      simp only [preprocess_internal, if_neg hdims, if_pos hc,
        cvtColorBGR2RGB_pos m hx hy]
    refine ⟨_, hpi, ?_, ?_⟩ <;> · split <;> simp
  · have hpi : preprocess_internal m c =
        some (if c.normalize then preprocNormalize m c.mean c.std else m) := by
      simp only [preprocess_internal, if_neg hdims, if_neg hc]
    refine ⟨_, hpi, ?_, ?_⟩ <;> · split <;> simp

/-- C3 fails on the code: with a zero target width the guard at
frame_processor.cpp line 66 is false, the resize is silently skipped, and the
preprocessing call succeeds with an empty error message and the input
geometry — no configuration error is reported. -/
theorem C3_counterexample :
    (preprocess_for_inference reset_stats matA zeroWidthPre).1.success = true ∧
    (preprocess_for_inference reset_stats matA zeroWidthPre).1.error_msg = "" ∧
    (preprocess_for_inference reset_stats matA zeroWidthPre).1.width = 1 ∧
    (preprocess_for_inference reset_stats matA zeroWidthPre).1.data = matA.data := by
  decide

/-- C3 (amended): a preprocessing call whose configuration carries a zero or
negative target width or height never reports a configuration error: the
resize step is silently skipped and processing continues.  Whenever the
remaining steps raise no fault of their own — the frame is nonempty when the
BGR→RGB conversion applies (otherwise `cvtColor` throws), and, excluding the
source's undefined-behaviour region, a non-identity normalization is only
applied to frames with at least 3 channels — the call succeeds, reports the
input geometry, and is counted as processed. -/
theorem C3_amended_silent_skip (s : Stats) (m : Mat) (c : PreprocessConfig)
    (hdims : ¬(0 < c.target_width ∧ 0 < c.target_height))
    (hcvt : c.rgb_conversion = true → m.channels = 3 → 0 < m.cols ∧ 0 < m.rows)
    (hnorm : c.normalize = true → meanStdNonIdentity c.mean c.std → 3 ≤ m.channels) :
    (preprocess_for_inference s m c).1.success = true ∧
    (preprocess_for_inference s m c).1.width = (m.cols : Int) ∧
    (preprocess_for_inference s m c).1.height = (m.rows : Int) ∧
    (preprocess_for_inference s m c).2.frames_processed = s.frames_processed + 1 := by
  obtain ⟨p, hp, hcols, hrows⟩ := preprocess_internal_skip m c hdims hcvt
  unfold preprocess_for_inference
  rw [hp]
  simp [hcols, hrows]

/-- Witness for the amended C3 at a concrete input with negative target
dimensions. -/
theorem C3_amended_silent_skip_witness :
    ¬(0 < negDimsPre.target_width ∧ 0 < negDimsPre.target_height) ∧
    (negDimsPre.rgb_conversion = true → matB.channels = 3 →
      0 < matB.cols ∧ 0 < matB.rows) ∧
    (negDimsPre.normalize = true →
      meanStdNonIdentity negDimsPre.mean negDimsPre.std → 3 ≤ matB.channels) ∧
    ((preprocess_for_inference reset_stats matB negDimsPre).1.success = true ∧
     (preprocess_for_inference reset_stats matB negDimsPre).1.width = (matB.cols : Int) ∧
     (preprocess_for_inference reset_stats matB negDimsPre).1.height = (matB.rows : Int) ∧
     (preprocess_for_inference reset_stats matB negDimsPre).2.frames_processed =
       reset_stats.frames_processed + 1) :=
  ⟨by decide, by decide, by decide,
   C3_amended_silent_skip reset_stats matB negDimsPre (by decide) (by decide)
     (by decide)⟩

/-- C1 fails on the code: `batch_preprocess` appends each result inside an
`omp critical` section of a parallel-for, so the aggregate order is the order
the critical sections are entered.  Under the legal OpenMP completion order
[1, 0] on a two-frame batch, the batch has the right size but slot 0 holds
frame 1's result, not frame 0's: the output is a nontrivial permutation of the
input order.  (`batch_encode_jpeg`, by contrast, is index-addressed.) -/
theorem C1_batch_preprocess_permutes :
    List.Perm [1, 0] (List.range 2) ∧
    (batch_preprocess [matA, matB] noResizePre [1, 0]).length = 2 ∧
    (batch_preprocess [matA, matB] noResizePre [1, 0]).getD 0 default ≠
      preprocess_result matA noResizePre ∧
    (batch_preprocess [matA, matB] noResizePre [1, 0]).getD 0 default =
      preprocess_result matB noResizePre ∧
    (batch_preprocess [matA, matB] noResizePre (List.range 2)).getD 0 default =
      preprocess_result matA noResizePre := by
  decide

/-- C2 fails on the code: in `batch_encode_jpeg` every worker's codec calls go
through the shared member handle `jpeg_compressor_` (frame_processor.cpp line
184); the per-worker handles allocated at line 236 never reach the codec.
Two distinct workers executing concurrently therefore invoke the very same
codec resource. -/
theorem C2_member_handle_shared :
    batch_handle_used 0 0 = batch_handle_used 1 1 ∧
    batch_handle_used 0 0 = TJHandle.member ∧
    batch_handle_used 0 0 ≠ batch_worker_alloc_handle 0 ∧
    batch_handle_used 1 1 ≠ batch_worker_alloc_handle 1 ∧
    batch_worker_alloc_handle 0 ≠ batch_worker_alloc_handle 1 := by
  decide

/-- C9 fails on the code: `submit_batch` enqueues unconditionally — after the
stop flag is set (state ShuttingDown) a submitted task is still enqueued, and
because a worker exits only when the queue is empty, the task is even
executed during the join phase. -/
theorem C9_counterexample :
    (submit_batch (set_stop initialPool) 7).tasks = [7] ∧
    (join_workers (submit_batch (set_stop initialPool) 7)).executed = [7] := by
  decide

/-- C9 (amended): submissions are enqueued regardless of the stop flag (the
code performs no stop check); already-queued tasks still run to completion
during shutdown; shutdown is idempotent; and a task submitted after all
workers have exited is never executed. -/
theorem C9_amended_pool (s : PoolState) (t : Nat)
    (hw : s.workersExited = false) :
    (submit_batch s t).tasks = s.tasks ++ [t] ∧
    (submit_encode_batch s t).tasks = s.tasks ++ [t] ∧
    (shutdown s).executed = s.executed ++ s.tasks ∧
    (shutdown s).tasks = [] ∧
    shutdown (shutdown s) = shutdown s ∧
    (join_workers (submit_batch (shutdown s) t)).executed = (shutdown s).executed := by
  simp [submit_batch, submit_encode_batch, shutdown, set_stop, join_workers, hw]

/-- Witness for the amended C9 at the freshly constructed pool. -/
theorem C9_amended_pool_witness :
    initialPool.workersExited = false ∧
    ((submit_batch initialPool 3).tasks = initialPool.tasks ++ [3] ∧
     (submit_encode_batch initialPool 3).tasks = initialPool.tasks ++ [3] ∧
     (shutdown initialPool).executed = initialPool.executed ++ initialPool.tasks ∧
     (shutdown initialPool).tasks = [] ∧
     shutdown (shutdown initialPool) = shutdown initialPool ∧
     (join_workers (submit_batch (shutdown initialPool) 3)).executed =
       (shutdown initialPool).executed) :=
  ⟨rfl, C9_amended_pool initialPool 3 rfl⟩

theorem bgrConvert_not4 (m : Mat) (h : ¬m.channels = 4) :
    bgrConvert m = some m := by
  unfold bgrConvert
  rw [if_neg h]

theorem bgrConvert_some_dims (m bgr : Mat) (h : bgrConvert m = some bgr) :
    bgr.cols = m.cols ∧ bgr.rows = m.rows := by
  unfold bgrConvert at h
  split at h
  · unfold cvtColorBGRA2BGR at h
    split at h
    · rw [Option.some.injEq] at h
      subst h
      exact ⟨rfl, rfl⟩
    · cases h
  · rw [Option.some.injEq] at h
    subst h
    exact ⟨rfl, rfl⟩

theorem tjCompress2_zero_cols (m : Mat) (c : JPEGConfig) (h : m.cols = 0) :
    tjCompress2 m c = none := by
  unfold tjCompress2
  rw [if_neg]
  simp [h]

theorem tjCompress2_pos (m : Mat) (c : JPEGConfig) (hc : 0 < m.cols)
    (hr : 0 < m.rows) :
    tjCompress2 m c =
      some ((m.cols : ℚ) :: (m.rows : ℚ) :: (c.quality : ℚ) :: m.data) := by
  unfold tjCompress2
  rw [if_pos ⟨hc, hr⟩]

theorem encode_result_zero_width (m : Mat) (c : JPEGConfig) (h : m.cols = 0) :
    (encode_result m c).success = false := by
  unfold encode_result encode_jpeg_internal encode_jpeg_run
  split
  · rfl
  · next bgr hbg =>
    rw [tjCompress2_zero_cols bgr c
      (by rw [(bgrConvert_some_dims m bgr hbg).1]; exact h)]
    split <;> rfl

theorem preprocess_result_zero_width (m : Mat) (h : m.cols = 0) :
    (preprocess_result m defaultPre).success = false := by
  unfold preprocess_result preprocess_for_inference preprocess_internal
  rw [if_pos (by constructor <;> decide)]
  unfold cvResize
  rw [if_neg (by simp [h])]

@[simp] theorem batch_encode_jpeg_length (frames : List Mat) (c : JPEGConfig) :
    (batch_encode_jpeg frames c).length = frames.length := by
  simp [batch_encode_jpeg]

theorem batch_encode_getD (frames : List Mat) (c : JPEGConfig) (j : Nat)
    (hj : j < frames.length) :
    (batch_encode_jpeg frames c).getD j default =
      encode_result (frames.getD j default) c := by
  unfold batch_encode_jpeg
  rw [List.getD_eq_getElem?_getD, List.getElem?_map, List.getElem?_range hj]
  rfl

/-- C4: a batch encode always returns one result per input frame; slot `i` of
the batch equals the isolated single-frame encode of frame `i`, so one
frame's failure populates only its own slot and every sibling result is
exactly what it would be in isolation; a malformed (zero-width) frame makes
only its own slot carry success = false (and the single-frame preprocessing
path likewise converts the fault of a zero-width frame into a failed result
instead of aborting). -/
theorem C4_batch_isolation (frames : List Mat) (c : JPEGConfig) (i : Nat)
    (hi : i < frames.length) :
    (batch_encode_jpeg frames c).length = frames.length ∧
    (batch_encode_jpeg frames c).getD i default =
      encode_result (frames.getD i default) c ∧
    ((frames.getD i default).cols = 0 →
      ((batch_encode_jpeg frames c).getD i default).success = false) ∧
    ((frames.getD i default).cols = 0 →
      (preprocess_result (frames.getD i default) defaultPre).success = false) := by
  refine ⟨batch_encode_jpeg_length frames c, batch_encode_getD frames c i hi, ?_, ?_⟩
  · intro h0
    rw [batch_encode_getD frames c i hi]
    exact encode_result_zero_width _ c h0
  · intro h0
    exact preprocess_result_zero_width _ h0

/-- Witness for C4: a two-frame batch whose first frame has zero width — the
batch still has two results, the bad frame fails only its own slot, and the
sibling equals its isolated encode. -/
theorem C4_batch_isolation_witness :
    0 < ([badMat, matA] : List Mat).length ∧
    ((batch_encode_jpeg [badMat, matA] defaultJpeg).length =
        ([badMat, matA] : List Mat).length ∧
      (batch_encode_jpeg [badMat, matA] defaultJpeg).getD 0 default =
        encode_result (([badMat, matA] : List Mat).getD 0 default) defaultJpeg ∧
      ((([badMat, matA] : List Mat).getD 0 default).cols = 0 →
        ((batch_encode_jpeg [badMat, matA] defaultJpeg).getD 0 default).success = false) ∧
      ((([badMat, matA] : List Mat).getD 0 default).cols = 0 →
        (preprocess_result (([badMat, matA] : List Mat).getD 0 default) defaultPre).success = false)) :=
  ⟨by decide, C4_batch_isolation [badMat, matA] defaultJpeg 0 (by decide)⟩

/-- C6: a 1- or 3-channel buffer is accepted and reaches the codec; a
nonempty 4-channel buffer is reduced to 3 channels (alpha dropped) before
encoding, reaches the codec, and succeeds (an *empty* 4-channel buffer
instead fails inside the `cvtColor` reduction before the codec is reached);
every other channel count yields success = false with the "Unsupported
channel count" error and the codec is never invoked for it. -/
theorem C6_encode_channel_handling (s : Stats) (m : Mat) (c : JPEGConfig) :
    ((m.channels = 1 ∨ m.channels = 3) →
      (encode_jpeg_run s m c).2.2 = true ∧
      (0 < m.cols → 0 < m.rows → (encode_jpeg_run s m c).1.success = true)) ∧
    (m.channels = 4 → 0 < m.cols → 0 < m.rows →
      cvtColorBGRA2BGR m =
        some { m with channels := 3, data := bgra2bgrData m.data } ∧
      (encode_jpeg_run s m c).2.2 = true ∧
      (encode_jpeg_run s m c).1.success = true) ∧
    (m.channels = 4 → (m.cols = 0 ∨ m.rows = 0) →
      (encode_jpeg_run s m c).2.2 = false ∧
      (encode_jpeg_run s m c).1.success = false) ∧
    (¬(m.channels = 1 ∨ m.channels = 3 ∨ m.channels = 4) →
      (encode_jpeg_run s m c).2.2 = false ∧
      (encode_jpeg_run s m c).1.success = false ∧
      (encode_jpeg_run s m c).1.error_msg = "Unsupported channel count") := by
  refine ⟨?_, ?_, ?_, ?_⟩
  · intro hch
    have h4 : ¬m.channels = 4 := by rcases hch with h | h <;> omega
    have hbg : bgrConvert m = some m := bgrConvert_not4 m h4
    constructor
    · simp only [encode_jpeg_run, hbg]
      rw [if_pos hch]
      cases htj : tjCompress2 m c <;> rfl
    · intro hc hr
      simp only [encode_jpeg_run, hbg]
      rw [if_pos hch, tjCompress2_pos m c hc hr]
  · intro h4 hc hr
    have hred := cvtColorBGRA2BGR_pos m hc hr
    have hbg : bgrConvert m =
        some { m with channels := 3, data := bgra2bgrData m.data } := by
      unfold bgrConvert
      rw [if_pos h4]
      exact hred
    refine ⟨hred, ?_, ?_⟩
    · cases htj :
          tjCompress2 { m with channels := 3, data := bgra2bgrData m.data } c <;>
        simp [encode_jpeg_run, hbg, htj]
    · simp [encode_jpeg_run, hbg,
        tjCompress2_pos { m with channels := 3, data := bgra2bgrData m.data } c hc hr]
  · intro h4 hor
    have hbg : bgrConvert m = none := by
      unfold bgrConvert
      rw [if_pos h4]
      unfold cvtColorBGRA2BGR
      rw [if_neg (by rcases hor with h | h <;> simp [h])]
    simp [encode_jpeg_run, hbg]
  · intro hch
    have h4 : ¬m.channels = 4 := fun h => hch (Or.inr (Or.inr h))
    have hb : ¬(m.channels = 1 ∨ m.channels = 3) := fun h =>
      h.elim (fun h1 => hch (Or.inl h1)) (fun h3 => hch (Or.inr (Or.inl h3)))
    simp only [encode_jpeg_run, bgrConvert_not4 m h4]
    rw [if_neg hb]
    exact ⟨rfl, rfl, rfl⟩

/-- Witness for C6: a nonempty 4-channel frame is reduced and encoded
successfully with the codec invoked; a 2-channel frame is rejected without
invoking the codec. -/
theorem C6_encode_channel_handling_witness :
    (mat4ch.channels = 4 ∧ 0 < mat4ch.cols ∧ 0 < mat4ch.rows) ∧
    cvtColorBGRA2BGR mat4ch =
      some { mat4ch with channels := 3, data := bgra2bgrData mat4ch.data } ∧
    (encode_jpeg_run reset_stats mat4ch defaultJpeg).2.2 = true ∧
    (encode_jpeg_run reset_stats mat4ch defaultJpeg).1.success = true ∧
    ¬(mat2ch.channels = 1 ∨ mat2ch.channels = 3 ∨ mat2ch.channels = 4) ∧
    (encode_jpeg_run reset_stats mat2ch defaultJpeg).2.2 = false ∧
    (encode_jpeg_run reset_stats mat2ch defaultJpeg).1.success = false ∧
    (encode_jpeg_run reset_stats mat2ch defaultJpeg).1.error_msg =
      "Unsupported channel count" :=
  ⟨by decide,
   ((C6_encode_channel_handling reset_stats mat4ch defaultJpeg).2.1 (by decide)
     (by decide) (by decide)).1,
   ((C6_encode_channel_handling reset_stats mat4ch defaultJpeg).2.1 (by decide)
     (by decide) (by decide)).2.1,
   ((C6_encode_channel_handling reset_stats mat4ch defaultJpeg).2.1 (by decide)
     (by decide) (by decide)).2.2,
   by decide,
   ((C6_encode_channel_handling reset_stats mat2ch defaultJpeg).2.2.2 (by decide)).1,
   ((C6_encode_channel_handling reset_stats mat2ch defaultJpeg).2.2.2 (by decide)).2.1,
   ((C6_encode_channel_handling reset_stats mat2ch defaultJpeg).2.2.2 (by decide)).2.2⟩

/-- C10: for a 4-channel input frame the result's channels metadata equals 4
(the input frame's channel count, recorded before the alpha-drop conversion)
on every path, and on a nonempty geometry the encode succeeds with a
codestream produced from the 3-channel reduced buffer that the `cvtColor`
conversion returned. -/
theorem C10_four_channel_metadata (s : Stats) (m : Mat) (c : JPEGConfig)
    (h4 : m.channels = 4) :
    (encode_jpeg_internal s m c).1.channels = 4 ∧
    (0 < m.cols → 0 < m.rows →
      (encode_jpeg_internal s m c).1.success = true ∧
      cvtColorBGRA2BGR m = some ((cvtColorBGRA2BGR m).getD default) ∧
      some (encode_jpeg_internal s m c).1.data =
        tjCompress2 ((cvtColorBGRA2BGR m).getD default) c) := by
  constructor
  · unfold encode_jpeg_internal encode_jpeg_run
    split
    · simp [h4]
    · split
      · split <;> simp [h4]
      · simp [h4]
  · intro hc hr
    have hred := cvtColorBGRA2BGR_pos m hc hr
    have hbg : bgrConvert m =
        some { m with channels := 3, data := bgra2bgrData m.data } := by
      unfold bgrConvert
      rw [if_pos h4]
      exact hred
    refine ⟨?_, ?_, ?_⟩
    · simp [encode_jpeg_internal, encode_jpeg_run, hbg,
        tjCompress2_pos { m with channels := 3, data := bgra2bgrData m.data } c hc hr]
    · simp [hred]
    · simp [encode_jpeg_internal, encode_jpeg_run, hbg, hred,
        tjCompress2_pos { m with channels := 3, data := bgra2bgrData m.data } c hc hr]

/-- Witness for C10 at a concrete 1-by-1 4-channel frame. -/
theorem C10_four_channel_metadata_witness :
    mat4ch.channels = 4 ∧
    (encode_jpeg_internal reset_stats mat4ch defaultJpeg).1.channels = 4 ∧
    (encode_jpeg_internal reset_stats mat4ch defaultJpeg).1.success = true ∧
    cvtColorBGRA2BGR mat4ch = some ((cvtColorBGRA2BGR mat4ch).getD default) ∧
    some (encode_jpeg_internal reset_stats mat4ch defaultJpeg).1.data =
      tjCompress2 ((cvtColorBGRA2BGR mat4ch).getD default) defaultJpeg :=
  ⟨by decide,
   (C10_four_channel_metadata reset_stats mat4ch defaultJpeg (by decide)).1,
   ((C10_four_channel_metadata reset_stats mat4ch defaultJpeg (by decide)).2
     (by decide) (by decide)).1,
   ((C10_four_channel_metadata reset_stats mat4ch defaultJpeg (by decide)).2
     (by decide) (by decide)).2.1,
   ((C10_four_channel_metadata reset_stats mat4ch defaultJpeg (by decide)).2
     (by decide) (by decide)).2.2⟩

theorem encode_stats_step (s : Stats) (m : Mat) (c : JPEGConfig) :
    ((encode_jpeg_internal s m c).1.success = true →
      (encode_jpeg_internal s m c).2.frames_processed = s.frames_processed + 1 ∧
      (encode_jpeg_internal s m c).2.bytes_encoded =
        s.bytes_encoded + (encode_jpeg_internal s m c).1.data.length) ∧
    ((encode_jpeg_internal s m c).1.success = false →
      (encode_jpeg_internal s m c).2 = s) := by
  unfold encode_jpeg_internal encode_jpeg_run
  split
  · simp
  · split
    · split <;> simp
    · simp

theorem run_encodes_length (frames : List Mat) (c : JPEGConfig) (s : Stats) :
    (run_encodes s frames c).1.length = frames.length := by
  induction frames generalizing s with
  | nil => rfl
  | cons m rest ih => simp [run_encodes, ih]

theorem run_encodes_stats (frames : List Mat) (c : JPEGConfig) (s : Stats)
    (h : ((run_encodes s frames c).1.all fun r => r.success) = true) :
    (run_encodes s frames c).2.frames_processed =
      s.frames_processed + frames.length ∧
    (run_encodes s frames c).2.bytes_encoded =
      s.bytes_encoded + ((run_encodes s frames c).1.map fun r => r.data.length).sum := by
  induction frames generalizing s with
  | nil => simp [run_encodes]
  | cons m rest ih =>
    simp only [run_encodes, List.all_cons, Bool.and_eq_true] at h ⊢
    obtain ⟨h1, h2⟩ := h
    obtain ⟨hf, hb⟩ := (encode_stats_step s m c).1 h1
    obtain ⟨ihf, ihb⟩ := ih (encode_jpeg_internal s m c).2 h2
    simp only [List.map_cons, List.sum_cons, List.length_cons]
    omega

/-- C7: on success a single encode increments `frames_processed` by one and
`bytes_encoded` by the produced codestream length, and a failed encode leaves
the statistics untouched; consequently, after `reset_stats`, performing K
successful encodes leaves `frames_processed` equal to K and `bytes_encoded`
equal to the sum of the K produced codestream lengths. -/
theorem C7_stats_accounting (s : Stats) (m : Mat) (c : JPEGConfig)
    (frames : List Mat)
    (hall : ((run_encodes reset_stats frames c).1.all fun r => r.success) = true) :
    ((encode_jpeg_internal s m c).1.success = true →
      (encode_jpeg_internal s m c).2.frames_processed = s.frames_processed + 1 ∧
      (encode_jpeg_internal s m c).2.bytes_encoded =
        s.bytes_encoded + (encode_jpeg_internal s m c).1.data.length) ∧
    ((encode_jpeg_internal s m c).1.success = false →
      (encode_jpeg_internal s m c).2 = s) ∧
    (run_encodes reset_stats frames c).1.length = frames.length ∧
    (run_encodes reset_stats frames c).2.frames_processed = frames.length ∧
    (run_encodes reset_stats frames c).2.bytes_encoded =
      ((run_encodes reset_stats frames c).1.map fun r => r.data.length).sum := by
  obtain ⟨hf, hb⟩ := run_encodes_stats frames c reset_stats hall
  refine ⟨(encode_stats_step s m c).1, (encode_stats_step s m c).2,
    run_encodes_length frames c reset_stats, ?_, ?_⟩
  · rw [hf]
    simp [reset_stats]
  · rw [hb]
    simp [reset_stats]

/-- Witness for C7: two successful encodes (a grayscale frame and a 3-channel
frame) starting from freshly reset statistics. -/
theorem C7_stats_accounting_witness :
    ((run_encodes reset_stats [grayMat, matA] defaultJpeg).1.all
        fun r => r.success) = true ∧
    (((encode_jpeg_internal reset_stats grayMat defaultJpeg).1.success = true →
        (encode_jpeg_internal reset_stats grayMat defaultJpeg).2.frames_processed =
          reset_stats.frames_processed + 1 ∧
        (encode_jpeg_internal reset_stats grayMat defaultJpeg).2.bytes_encoded =
          reset_stats.bytes_encoded +
            (encode_jpeg_internal reset_stats grayMat defaultJpeg).1.data.length) ∧
      ((encode_jpeg_internal reset_stats grayMat defaultJpeg).1.success = false →
        (encode_jpeg_internal reset_stats grayMat defaultJpeg).2 = reset_stats) ∧
      (run_encodes reset_stats [grayMat, matA] defaultJpeg).1.length =
        ([grayMat, matA] : List Mat).length ∧
      (run_encodes reset_stats [grayMat, matA] defaultJpeg).2.frames_processed =
        ([grayMat, matA] : List Mat).length ∧
      (run_encodes reset_stats [grayMat, matA] defaultJpeg).2.bytes_encoded =
        ((run_encodes reset_stats [grayMat, matA] defaultJpeg).1.map
          fun r => r.data.length).sum) :=
  ⟨by decide,
   C7_stats_accounting reset_stats grayMat defaultJpeg [grayMat, matA] (by decide)⟩

@[simp] theorem resampleData_length (m : Mat) (W H : Nat) :
    (resampleData m W H).length = H * W * m.channels := by
  simp [resampleData]

/-- C8: whenever `resize_frame` reports success, the reported width and
height are the requested ones, the result data is exactly the buffer the
resize primitive produced, that buffer's geometry matches the report, and its
sample count matches that geometry. -/
theorem C8_resize_geometry (s : Stats) (m : Mat) (tw th : Int) (interp : Nat)
    (hs : (resize_frame s m tw th interp).1.success = true) :
    (resize_frame s m tw th interp).1.width = tw ∧
    (resize_frame s m tw th interp).1.height = th ∧
    cvResize m tw th interp = some ((cvResize m tw th interp).getD default) ∧
    (resize_frame s m tw th interp).1.data =
      ((cvResize m tw th interp).getD default).data ∧
    (((cvResize m tw th interp).getD default).cols : Int) = tw ∧
    (((cvResize m tw th interp).getD default).rows : Int) = th ∧
    ((cvResize m tw th interp).getD default).data.length =
      ((cvResize m tw th interp).getD default).rows *
        ((cvResize m tw th interp).getD default).cols *
        ((cvResize m tw th interp).getD default).channels := by
  cases hcv : cvResize m tw th interp with
  | none =>
    exfalso
    unfold resize_frame at hs
    rw [hcv] at hs
    simp at hs
  | some p =>
    have hp : p.cols = tw.toNat ∧ p.rows = th.toNat ∧ p.channels = m.channels ∧
        p.data = resampleData m tw.toNat th.toNat ∧ 0 < tw ∧ 0 < th := by
      unfold cvResize at hcv
      split at hcv
      · next hcond =>
        rw [Option.some.injEq] at hcv
        subst hcv
        exact ⟨rfl, rfl, rfl, rfl, hcond.1, hcond.2.1⟩
      · exact absurd hcv (by simp)
    obtain ⟨hcols, hrows, hch, hdata, htw, hth⟩ := hp
    unfold resize_frame
    rw [hcv]
    refine ⟨rfl, rfl, by simp, by simp, ?_, ?_, ?_⟩
    · simp only [Option.getD_some]
      rw [hcols, Int.toNat_of_nonneg (le_of_lt htw)]
    · simp only [Option.getD_some]
      rw [hrows, Int.toNat_of_nonneg (le_of_lt hth)]
    · simp only [Option.getD_some]
      rw [hdata, resampleData_length, hcols, hrows, hch]

/-- Witness for C8: resizing a 2-by-2 frame to 3-by-2. -/
theorem C8_resize_geometry_witness :
    (resize_frame reset_stats matB 3 2 1).1.success = true ∧
    ((resize_frame reset_stats matB 3 2 1).1.width = 3 ∧
      (resize_frame reset_stats matB 3 2 1).1.height = 2 ∧
      cvResize matB 3 2 1 = some ((cvResize matB 3 2 1).getD default) ∧
      (resize_frame reset_stats matB 3 2 1).1.data =
        ((cvResize matB 3 2 1).getD default).data ∧
      (((cvResize matB 3 2 1).getD default).cols : Int) = 3 ∧
      (((cvResize matB 3 2 1).getD default).rows : Int) = 2 ∧
      ((cvResize matB 3 2 1).getD default).data.length =
        ((cvResize matB 3 2 1).getD default).rows *
          ((cvResize matB 3 2 1).getD default).cols *
          ((cvResize matB 3 2 1).getD default).channels) :=
  ⟨by decide, C8_resize_geometry reset_stats matB 3 2 1 (by decide)⟩

end Overwatch
